import Mathlib

/-!
Verification of the generation-orchestration pipeline of an AI photoshoot
application.  The development shallowly embeds the data model (`types.ts`),
the prompt builder and sequential batch loop (`services/geminiService.ts`),
and the application-level handlers (`handleGenerate`, `handleRegenerate`,
`handleVideoAction` of the root component).  Remote gateway calls are
modelled as explicit outcome oracles (`Except String …`); React state
updates become explicit state passing on an `AppState` record.
-/

namespace ImageStyleGen

/-- `ImageFile` from `types.ts`: base64 payload plus media type. -/
structure ImageFile where
  data : String
  mimeType : String
deriving Repr, DecidableEq

/-- `FormState` from `types.ts`: the batch parameters captured by the form. -/
structure FormState where
  productImage : Option ImageFile
  modelImage : Option ImageFile
  productDescription : String
  numberOfImages : Nat
  delay : Nat
  style : String
  aspectRatio : String
deriving Repr, DecidableEq

/-- The `status` field of `ImageResult`: `'loading' | 'success' | 'error'`. -/
inductive PhotoStatus where
  | loading
  | success
  | error
deriving Repr, DecidableEq

/-- The `videoStatus` field of `ImageResult`:
`'idle' | 'loading' | 'success' | 'error'`. -/
inductive VideoStatus where
  | idle
  | loading
  | success
  | error
deriving Repr, DecidableEq

/-- `ImageResult` from `types.ts`: one tracked item of a batch.  Optional
TypeScript fields become `Option`s; an absent `src` is the empty string, as in
the source (`src: ''` at creation). -/
structure ImageResult where
  id : String
  src : String
  prompt : String
  style : String
  aspectRatio : String
  status : PhotoStatus
  error : Option String
  videoSrc : Option String
  videoStatus : VideoStatus
  videoError : Option String
deriving Repr, DecidableEq

/-- `HistoryEntry` from `types.ts`. -/
structure HistoryEntry where
  id : Nat
  date : String
  formState : FormState
  images : List ImageResult
deriving Repr, DecidableEq

/-- `ViewingVideoState` from the root component. -/
structure ViewingVideo where
  videoSrc : String
  imageSrc : String
deriving Repr, DecidableEq

/-- The React state of the root component that the claims touch. -/
structure AppState where
  images : List ImageResult
  isLoading : Bool
  error : Option String
  lastUsedFormState : Option FormState
  viewingVideo : Option ViewingVideo
  history : List HistoryEntry
deriving Repr, DecidableEq

/-- `constructPrompt` from `services/geminiService.ts`, translated clause by
clause.  JavaScript truthiness of `productDescription` is non-emptiness; the
reference-image conditional chain checks `modelImage && productImage` first,
then `modelImage`, then `productImage`. -/
def constructPrompt (formState : FormState) (pose : String) : String :=
  let t0 := "Create a new hyper-realistic 4K commercial photoshoot image."
  let t1 :=
    if formState.productDescription ≠ "" then
      t0 ++ (" The product is: \"" ++ formState.productDescription ++ "\".")
    else t0
  let t2 := t1 ++
    (match formState.modelImage, formState.productImage with
     | some _, some _ => " Featuring the attached model posing with the attached product."
     | some _, none => " Featuring the attached model in a commercial setting."
     | none, some _ => " Featuring a fashion model posing with the attached product."
     | none, none => " Featuring a fashion model posing with a generic commercial product.")
  let t3 := t2 ++ (" The model\x27s pose is: \"" ++ pose ++ "\".")
  let t4 := t3 ++ (" The image must have a " ++ formState.aspectRatio ++ " aspect ratio.")
  t4 ++
    (match formState.style with
     | "e-commerce" => " The overall style should be photorealistic, clean, and professional. The background must be a completely plain, solid white background (#FFFFFF) suitable for an e-commerce product listing. The lighting should be bright and even, minimizing shadows. High-end commercial photography, sharp focus on the product and model."
     | "studio-bokeh" => " The style is photorealistic. The background should be a clean studio setting with a soft, out-of-focus bokeh effect, creating a sense of depth. The lighting should be professional and flattering."
     | "cinematic" => " The style should be cinematic, with dramatic, high-contrast lighting (chiaroscuro). The background should be dark and moody, suggesting a scene from a film."
     | "high-fashion" => " The style should be high-fashion and avant-garde. The background must be an abstract, geometric pattern with bold colors and shapes."
     | "lifestyle" => " Create a lifestyle scene with the model in a natural, candid pose. The setting should be outdoors with beautiful, warm, natural light (golden hour)."
     | "vintage" => " The style should be vintage, reminiscent of old film photography. Apply a sepia tone, add subtle film grain, and use soft, nostalgic lighting."
     | "minimalist" => " The style must be minimalist and clean. The background should be a simple, neutral-colored studio setting with even, soft lighting."
     | "dramatic" => " The style should be dramatic and theatrical. Use a single, hard light source to create deep shadows and a strong focal point. The background should be dark or black."
     | "monochrome" => " The image must be in black and white (monochrome). The background should be a simple studio setting, focusing on texture, form, and light."
     | other => " The overall style should be " ++ other ++ ". The background should be a clean studio setting with professional lighting. High-end commercial photography, sharp focus.")

/-- Spec-side decomposition: the fixed preamble. -/
def promptPreamble : String :=
  "Create a new hyper-realistic 4K commercial photoshoot image."

/-- Spec-side decomposition: the product-description clause, empty when the
description is empty. -/
def descriptionClause (d : String) : String :=
  if d ≠ "" then " The product is: \"" ++ d ++ "\"." else ""

/-- Spec-side decomposition: the reference-image clause, one of four variants
chosen by which of the model and product images are present. -/
def referenceImageClause (modelImage productImage : Option ImageFile) : String :=
  match modelImage, productImage with
  | some _, some _ => " Featuring the attached model posing with the attached product."
  | some _, none => " Featuring the attached model in a commercial setting."
  | none, some _ => " Featuring a fashion model posing with the attached product."
  | none, none => " Featuring a fashion model posing with a generic commercial product."

/-- Spec-side decomposition: the pose clause. -/
def poseClause (pose : String) : String :=
  " The model\x27s pose is: \"" ++ pose ++ "\"."

/-- Spec-side decomposition: the aspect-ratio constraint clause. -/
def aspectRatioClause (ar : String) : String :=
  " The image must have a " ++ ar ++ " aspect ratio."

/-- The fixed style enumeration offered by the form
(`styleOptions` in the components). -/
def knownStyles : List String :=
  ["e-commerce", "studio-bokeh", "cinematic", "high-fashion", "lifestyle",
   "vintage", "minimalist", "dramatic", "monochrome"]

/-- Spec-side decomposition: the generic clean-studio fallback clause used for
an unrecognized style. -/
def genericStyleClause (style : String) : String :=
  " The overall style should be " ++ style ++ ". The background should be a clean studio setting with professional lighting. High-end commercial photography, sharp focus."

/-- Spec-side decomposition: the style-specific clause, one fixed descriptive
clause per enumerated style, with the generic fallback otherwise. -/
def styleClause (style : String) : String :=
  match style with
  | "e-commerce" => " The overall style should be photorealistic, clean, and professional. The background must be a completely plain, solid white background (#FFFFFF) suitable for an e-commerce product listing. The lighting should be bright and even, minimizing shadows. High-end commercial photography, sharp focus on the product and model."
  | "studio-bokeh" => " The style is photorealistic. The background should be a clean studio setting with a soft, out-of-focus bokeh effect, creating a sense of depth. The lighting should be professional and flattering."
  | "cinematic" => " The style should be cinematic, with dramatic, high-contrast lighting (chiaroscuro). The background should be dark and moody, suggesting a scene from a film."
  | "high-fashion" => " The style should be high-fashion and avant-garde. The background must be an abstract, geometric pattern with bold colors and shapes."
  | "lifestyle" => " Create a lifestyle scene with the model in a natural, candid pose. The setting should be outdoors with beautiful, warm, natural light (golden hour)."
  | "vintage" => " The style should be vintage, reminiscent of old film photography. Apply a sepia tone, add subtle film grain, and use soft, nostalgic lighting."
  | "minimalist" => " The style must be minimalist and clean. The background should be a simple, neutral-colored studio setting with even, soft lighting."
  | "dramatic" => " The style should be dramatic and theatrical. Use a single, hard light source to create deep shadows and a strong focal point. The background should be dark or black."
  | "monochrome" => " The image must be in black and white (monochrome). The background should be a simple studio setting, focusing on texture, form, and light."
  | other => genericStyleClause other

/-- Spec-side prompt: the concatenation the spec describes. -/
def promptSpec (formState : FormState) (pose : String) : String :=
  promptPreamble ++ descriptionClause formState.productDescription ++
    referenceImageClause formState.modelImage formState.productImage ++
    poseClause pose ++ aspectRatioClause formState.aspectRatio ++
    styleClause formState.style

/-- The `onSuccess` callback of `handleGenerate`: mark index `index` as a
success with the produced image URL. -/
def onSuccessUpdate (index : Nat) (imageUrl : String)
    (images : List ImageResult) : List ImageResult :=
  images.mapIdx (fun i img =>
    if i = index then { img with src := imageUrl, status := PhotoStatus.success } else img)

/-- The `onError` callback of `handleGenerate`: mark index `index` as an
error carrying the message. -/
def onErrorUpdate (index : Nat) (errorMessage : String)
    (images : List ImageResult) : List ImageResult :=
  images.mapIdx (fun i img =>
    if i = index then { img with status := PhotoStatus.error, error := some errorMessage } else img)

/-- `err.message || 'An unknown error occurred.'` from the loop body of
`generatePhotos`. -/
def normalizeMessage (msg : String) : String :=
  if msg = "" then "An unknown error occurred." else msg

/-- One iteration of the `generatePhotos` loop: call the gateway for the
item at `index` and apply the matching callback. -/
def generateStep (gen : Nat → Except String String)
    (images : List ImageResult) (index : Nat) : List ImageResult :=
  match gen index with
  | Except.ok imageUrl => onSuccessUpdate index imageUrl images
  | Except.error msg => onErrorUpdate index (normalizeMessage msg) images

/-- `generatePhotos` from `services/geminiService.ts`: the sequential loop
over all pose indices.  The inter-item delay only suspends and does not touch
state, so it has no footprint here. -/
def generatePhotos (gen : Nat → Except String String)
    (poseTasks : List String) (images : List ImageResult) : List ImageResult :=
  (List.range poseTasks.length).foldl (generateStep gen) images

/-- The terminal value an item with initial record `img` reaches at index
`index` once its iteration ran. -/
def finalizeItem (gen : Nat → Except String String) (index : Nat)
    (img : ImageResult) : ImageResult :=
  match gen index with
  | Except.ok imageUrl => { img with src := imageUrl, status := PhotoStatus.success }
  | Except.error msg => { img with status := PhotoStatus.error, error := some (normalizeMessage msg) }

/-- The freshly created item for pose `pose` at position `index`
(`initialImages` in `handleGenerate`); ids are built from the clock value. -/
def initialItem (fs : FormState) (now : Nat) (index : Nat) (pose : String) : ImageResult :=
  { id := toString now ++ "-" ++ toString index
    src := ""
    prompt := pose
    style := fs.style
    aspectRatio := fs.aspectRatio
    status := PhotoStatus.loading
    error := none
    videoSrc := none
    videoStatus := VideoStatus.idle
    videoError := none }

/-- `initialImages` from `handleGenerate`: one `Loading` item per pose, in
pose order. -/
def initialImages (fs : FormState) (now : Nat) (poses : List String) : List ImageResult :=
  poses.mapIdx (fun index pose => initialItem fs now index pose)

/-! ### Index-wise characterization of the loop -/

/-- Stable insertion for a descending-by-id sort: the entry goes in front of
the first element whose id is not larger, so earlier elements keep their
relative order among equal ids. -/
def insertByIdDesc (e : HistoryEntry) : List HistoryEntry → List HistoryEntry
  | [] => [e]
  | f :: rest => if f.id ≤ e.id then e :: f :: rest else f :: insertByIdDesc e rest

/-- The sort performed by `saveHistory` in the `useHistory` hook
(`utils.ts`): `newHistory.sort((a, b) => b.id - a.id)` — a stable sort by id
(timestamp) descending, modelled as stable insertion sort. -/
def sortByIdDesc : List HistoryEntry → List HistoryEntry
  | [] => []
  | e :: rest => insertByIdDesc e (sortByIdDesc rest)

/-- `addToHistory` from the `useHistory` hook (`utils.ts`): build the new
entry from the payload plus the clock timestamp (the ISO date string is
abstracted as the rendered clock value), prepend it to the previous history,
and store via `saveHistory`, which sorts by id descending — `sort` mutates
the array in place, so the sorted list is also what the state updater
returns.  No entry is ever filtered out. -/
def addToHistory (now : Nat) (fs : FormState) (images : List ImageResult)
    (history : List HistoryEntry) : List HistoryEntry :=
  sortByIdDesc
    ({ id := now, date := toString now, formState := fs, images := images } :: history)

/-- The history-archiving effect of the root component: it fires when
`isLoading` transitions from `true` to `false` and `lastUsedFormState` is
set, appending the current images under the last-used form state. -/
def archiveEffect (now : Nat) (s : AppState) : AppState :=
  match s.lastUsedFormState with
  | some fs => { s with history := addToHistory now fs s.images s.history }
  | none => s

/-- The `catch` block of `handleGenerate`: record the error message and, when
items already exist, mark them all as failed (otherwise keep the empty
list). -/
def generateCatch (msg : String) (s : AppState) : AppState :=
  { s with
    error := some ("An unexpected error occurred: " ++ msg)
    images :=
      if s.images.length > 0 then
        s.images.map (fun img =>
          { img with status := PhotoStatus.error, error := some "Generation failed" })
      else [] }

/-- `handleGenerate` from the root component, for one submit: reset state and
capture the form snapshot, plan poses (`posesResult` is the outcome of
`generatePoses`, carrying the raw gateway message), fail the attempt when
planning failed or produced no poses, otherwise create the initial items and
run the sequential loop; finally clear `isLoading`, which triggers the
archiving effect. -/
def handleGenerate (fs : FormState) (now : Nat)
    (posesResult : Except String (List String))
    (gen : Nat → Except String String) (s : AppState) : AppState :=
  let s0 := { s with
    isLoading := true, error := none, images := [], lastUsedFormState := some fs }
  let s1 :=
    match posesResult with
    | Except.error msg =>
        generateCatch ("Failed to generate poses: " ++ msg) s0
    | Except.ok poses =>
        if poses.length = 0 then
          generateCatch "The AI failed to generate any poses. Try adjusting the description." s0
        else
          let s2 := { s0 with images := initialImages fs now poses }
          { s2 with images := generatePhotos gen poses s2.images }
  archiveEffect now { s1 with isLoading := false }

/-- The `updates` argument of `handleRegenerate`. -/
structure RegenUpdates where
  newStyle : String
  newPrompt : String
deriving Repr, DecidableEq

/-- The body of `handleRegenerate` past its guards: mark the item as loading
with the new style and prompt and reset its video sub-state, then apply the
outcome of `regeneratePhoto` (the oracle `regenResult`). -/
def regenApply (imageId : String) (updates : RegenUpdates)
    (regenResult : Except String String) (s : AppState) : AppState :=
  let s1 := { s with images := s.images.map (fun (img : ImageResult) =>
      if img.id = imageId then
        { img with status := PhotoStatus.loading, style := updates.newStyle,
                   prompt := updates.newPrompt, videoStatus := VideoStatus.idle,
                   videoSrc := none, videoError := none }
      else img) }
  match regenResult with
  | Except.ok imageUrl =>
      { s1 with images := s1.images.map (fun (img : ImageResult) =>
          if img.id = imageId then
            { img with src := imageUrl, status := PhotoStatus.success }
          else img) }
  | Except.error msg =>
      { s1 with
        error := some ("Failed to regenerate image: " ++ msg)
        images := s1.images.map (fun (img : ImageResult) =>
          if img.id = imageId then
            { img with status := PhotoStatus.error, error := some msg }
          else img) }

/-- `handleRegenerate` from the root component: require the last-used form
state, find the item, skip identical style-and-prompt requests, otherwise run
the regeneration body. -/
def handleRegenerate (imageId : String) (updates : RegenUpdates)
    (regenResult : Except String String) (s : AppState) : AppState :=
  match s.lastUsedFormState with
  | none => { s with error := some "Cannot regenerate. Original form data not found." }
  | some _ =>
    match s.images.find? (fun img => img.id == imageId) with
    | none => s
    | some imageToUpdate =>
      if updates.newStyle = imageToUpdate.style ∧ updates.newPrompt = imageToUpdate.prompt then
        s
      else regenApply imageId updates regenResult s

/-- The net per-item effect of a successful regeneration: new source and
style and prompt, video sub-state reset; the stale `error` field is kept. -/
def regenSuccessItem (updates : RegenUpdates) (imageUrl : String)
    (img : ImageResult) : ImageResult :=
  { img with src := imageUrl, status := PhotoStatus.success,
             style := updates.newStyle, prompt := updates.newPrompt,
             videoStatus := VideoStatus.idle, videoSrc := none, videoError := none }

/-- The net per-item effect of a failed regeneration: error state with the
failure reason, new style and prompt, video sub-state reset; the stale `src`
field is kept. -/
def regenErrorItem (updates : RegenUpdates) (msg : String)
    (img : ImageResult) : ImageResult :=
  { img with status := PhotoStatus.error, error := some msg,
             style := updates.newStyle, prompt := updates.newPrompt,
             videoStatus := VideoStatus.idle, videoSrc := none, videoError := none }

/-- JavaScript truthiness of the optional `videoSrc` string. -/
def isTruthyOpt : Option String → Bool
  | some v => v != ""
  | none => false

/-- The body of `handleVideoAction` past its guards: enter the loading video
state, clear the prior video error, submit the job (the oracle
`videoResult`), then record the terminal outcome; on success the produced
video is also opened in the viewer. -/
def videoRun (imageId : String) (imageToUpdate : ImageResult)
    (videoResult : Except String String) (s : AppState) : AppState :=
  let s1 := { s with
    error := none
    images := s.images.map (fun (img : ImageResult) =>
      if img.id = imageId then
        { img with videoStatus := VideoStatus.loading, videoError := none }
      else img) }
  match videoResult with
  | Except.ok videoSrc =>
      { s1 with
        images := s1.images.map (fun (img : ImageResult) =>
          if img.id = imageId then
            { img with videoStatus := VideoStatus.success, videoSrc := some videoSrc }
          else img)
        viewingVideo := some (ViewingVideo.mk videoSrc imageToUpdate.src) }
  | Except.error msg =>
      { s1 with
        error := some ("Failed to generate video: " ++ msg)
        images := s1.images.map (fun (img : ImageResult) =>
          if img.id = imageId then
            { img with videoStatus := VideoStatus.error, videoError := some msg }
          else img) }

/-- `handleVideoAction` from the root component.  The guards, in source
order: a missing item or a non-`success` photo state returns silently; a
`success` video state with a truthy stored source just opens the viewer; a
`loading` video state returns silently; otherwise the job runs.  The boolean
of the result is `true` exactly when the gateway was called.  The aspect
ratio only flows to the gateway request, hence is unused in the state. -/
def handleVideoAction (imageId : String) (aspectRatio : String)
    (videoResult : Except String String) (s : AppState) : AppState × Bool :=
  match s.images.find? (fun img => img.id == imageId) with
  | none => (s, false)
  | some imageToUpdate =>
    if imageToUpdate.status ≠ PhotoStatus.success then (s, false)
    else if imageToUpdate.videoStatus = VideoStatus.success ∧
        isTruthyOpt imageToUpdate.videoSrc then
      let vv := some (ViewingVideo.mk (imageToUpdate.videoSrc.getD "") imageToUpdate.src)
      ({ s with viewingVideo := vv }, false)
    else if imageToUpdate.videoStatus = VideoStatus.loading then (s, false)
    else (videoRun imageId imageToUpdate videoResult s, true)

/-! ## Observation helpers and the photo-state invariant -/

/-- The photo state of the item at position `j`, when it exists. -/
def statusAt (l : List ImageResult) (j : Nat) : Option PhotoStatus :=
  Option.map ImageResult.status l[j]?

/-- The `error` field of the item at position `j`, when it exists. -/
def errorAt (l : List ImageResult) (j : Nat) : Option (Option String) :=
  Option.map ImageResult.error l[j]?

/-- The `src` field of the item at position `j`, when it exists. -/
def srcAt (l : List ImageResult) (j : Nat) : Option String :=
  Option.map ImageResult.src l[j]?

/-- The claimed invariant on one tracked item: the photo result (a non-empty
`src`) is present exactly in the `success` state, the photo error exactly in
the `error` state, and never both. -/
def photoInvariant (img : ImageResult) : Prop :=
  (img.src ≠ "" ↔ img.status = PhotoStatus.success) ∧
  (img.error ≠ none ↔ img.status = PhotoStatus.error) ∧
  ¬ (img.src ≠ "" ∧ img.error ≠ none)

instance decPhotoInvariant (img : ImageResult) : Decidable (photoInvariant img) :=
  inferInstanceAs (Decidable
    ((img.src ≠ "" ↔ img.status = PhotoStatus.success) ∧
     (img.error ≠ none ↔ img.status = PhotoStatus.error) ∧
     ¬ (img.src ≠ "" ∧ img.error ≠ none)))

/-! ## Concrete fixtures for witnesses and counterexamples -/

/-- A sample form snapshot (all fields at the form's defaults except the
description). -/
def fsSample : FormState :=
  { productImage := none, modelImage := none, productDescription := "A red shoe",
    numberOfImages := 2, delay := 0, style := "e-commerce", aspectRatio := "9:16" }

/-- The initial application state. -/
def emptyState : AppState :=
  { images := [], isLoading := false, error := none, lastUsedFormState := none,
    viewingVideo := none, history := [] }

/-- An image-synthesis oracle that fails on the first item only. -/
def genFirstFails : Nat → Except String String :=
  fun n => if n = 0 then Except.error "blocked" else Except.ok "data:ok"

/-- An image-synthesis oracle that always succeeds. -/
def genAllOk : Nat → Except String String :=
  fun _ => Except.ok "data:image/png;base64,QUJD"

/-- An item whose video already finished successfully. -/
def itemVideoSuccess : ImageResult :=
  { id := "a", src := "data:img", prompt := "p", style := "e-commerce",
    aspectRatio := "9:16", status := PhotoStatus.success, error := none,
    videoSrc := some "data:vid", videoStatus := VideoStatus.success, videoError := none }

/-- A state holding `itemVideoSuccess`. -/
def sVideoSuccess : AppState :=
  { emptyState with images := [itemVideoSuccess], lastUsedFormState := some fsSample }

/-- An item whose video generation is in flight. -/
def itemVideoLoading : ImageResult :=
  { id := "a", src := "data:img", prompt := "p", style := "e-commerce",
    aspectRatio := "9:16", status := PhotoStatus.success, error := none,
    videoSrc := none, videoStatus := VideoStatus.loading, videoError := none }

/-- A state holding `itemVideoLoading`. -/
def sVideoLoading : AppState :=
  { emptyState with images := [itemVideoLoading], lastUsedFormState := some fsSample }

/-- An item whose photo generation is in flight. -/
def itemPhotoLoading : ImageResult :=
  { id := "a", src := "", prompt := "p", style := "e-commerce",
    aspectRatio := "9:16", status := PhotoStatus.loading, error := none,
    videoSrc := none, videoStatus := VideoStatus.idle, videoError := none }

/-- A state holding `itemPhotoLoading`. -/
def sPhotoLoading : AppState :=
  { emptyState with images := [itemPhotoLoading], lastUsedFormState := some fsSample }

/-- A successful item with a successful video, ready for regeneration. -/
def itemRegen : ImageResult :=
  { id := "a", src := "data:old", prompt := "p", style := "e-commerce",
    aspectRatio := "1:1", status := PhotoStatus.success, error := none,
    videoSrc := some "data:vid", videoStatus := VideoStatus.success, videoError := none }

/-- A state holding `itemRegen`. -/
def sRegen : AppState :=
  { emptyState with images := [itemRegen], lastUsedFormState := some fsSample }

/-- The expected record after regenerating `itemRegen` with style
`cinematic` and outcome `Except.ok "data:new"`. -/
def itemRegenOkResult : ImageResult :=
  { id := "a", src := "data:new", prompt := "p", style := "cinematic",
    aspectRatio := "1:1", status := PhotoStatus.success, error := none,
    videoSrc := none, videoStatus := VideoStatus.idle, videoError := none }

/-- The record after a failed regeneration of `itemRegen` with a new prompt:
the previous source survives next to the fresh error. -/
def itemRegenFailResult : ImageResult :=
  { id := "a", src := "data:old", prompt := "p2", style := "e-commerce",
    aspectRatio := "1:1", status := PhotoStatus.error, error := some "boom",
    videoSrc := none, videoStatus := VideoStatus.idle, videoError := none }

/-- The terminal item produced by the one-pose witness batch on `fsSample`
with oracle `genAllOk` and clock value 11. -/
def itemBatchOkResult : ImageResult :=
  { id := "11-0", src := "data:image/png;base64,QUJD", prompt := "pose-a",
    style := "e-commerce", aspectRatio := "9:16", status := PhotoStatus.success,
    error := none, videoSrc := none, videoStatus := VideoStatus.idle,
    videoError := none }

/-- A form snapshot with a style outside the fixed enumeration. -/
def fsFunky : FormState :=
  { fsSample with style := "funky" }

/-! ## Theorems -/

theorem styleClause_of_not_known (st : String) (h : st ∉ knownStyles) :
    styleClause st = genericStyleClause st := by
  unfold styleClause
  split
  all_goals simp_all [knownStyles]

theorem constructPrompt_eq_promptSpec (fs : FormState) (pose : String) :
    constructPrompt fs pose = promptSpec fs pose := by
  unfold constructPrompt promptSpec promptPreamble descriptionClause
    referenceImageClause poseClause aspectRatioClause styleClause genericStyleClause
  by_cases hd : fs.productDescription = "" <;>
    cases hm : fs.modelImage <;>
      cases hp : fs.productImage <;>
        simp [hd, hm, hp, String.append_assoc, String.append_empty]

/-! ## Sequential batch execution

`generatePhotos` in `services/geminiService.ts` loops over the pose tasks in
index order; each iteration calls the image-synthesis gateway and reports the
outcome through the `onSuccess`/`onError` callbacks that `handleGenerate`
wires to per-index state updates.  The gateway outcome for iteration `i` is
the oracle `gen i`. -/

theorem getElemOpt_mapIdx {α β : Type} (l : List α) (f : Nat → α → β) (j : Nat) :
    (l.mapIdx f)[j]? = Option.map (f j) l[j]? := by
  rcases Nat.lt_or_ge j l.length with h | h
  · have h2 : j < (l.mapIdx f).length := by
      rw [List.length_mapIdx]; exact h
    rw [List.getElem?_eq_getElem h, List.getElem?_eq_getElem h2]
    have h3 := List.get_mapIdx l f j h
    rw [List.get_eq_getElem, List.get_eq_getElem] at h3
    simp [h3]
  · have h2 : (l.mapIdx f).length ≤ j := by
      rw [List.length_mapIdx]; exact h
    rw [List.getElem?_eq_none h, List.getElem?_eq_none h2]
    rfl

theorem length_onSuccessUpdate (index : Nat) (imageUrl : String)
    (images : List ImageResult) :
    (onSuccessUpdate index imageUrl images).length = images.length := by
  simp [onSuccessUpdate, List.length_mapIdx]

theorem length_onErrorUpdate (index : Nat) (errorMessage : String)
    (images : List ImageResult) :
    (onErrorUpdate index errorMessage images).length = images.length := by
  simp [onErrorUpdate, List.length_mapIdx]

theorem length_generateStep (gen : Nat → Except String String)
    (images : List ImageResult) (index : Nat) :
    (generateStep gen images index).length = images.length := by
  unfold generateStep
  cases gen index <;> simp [length_onSuccessUpdate, length_onErrorUpdate]

theorem generateStep_getElemOpt (gen : Nat → Except String String)
    (images : List ImageResult) (index j : Nat) :
    (generateStep gen images index)[j]? =
      if j = index then Option.map (finalizeItem gen index) images[j]? else images[j]? := by
  by_cases hj : j = index
  · subst hj
    cases hgen : gen j <;>
      simp [generateStep, onSuccessUpdate, onErrorUpdate, getElemOpt_mapIdx, hgen] <;>
        cases images[j]? <;> simp [finalizeItem, hgen]
  · cases hgen : gen index <;>
      simp [generateStep, onSuccessUpdate, onErrorUpdate, getElemOpt_mapIdx, hgen, hj]

theorem length_foldRange (gen : Nat → Except String String) :
    ∀ (n : Nat) (images : List ImageResult),
      ((List.range n).foldl (generateStep gen) images).length = images.length := by
  intro n
  induction n with
  | zero => intro images; simp
  | succ n ih =>
    intro images
    rw [List.range_succ, List.foldl_append]
    simp [length_generateStep, ih]

theorem foldRange_getElemOpt (gen : Nat → Except String String) :
    ∀ (n : Nat) (images : List ImageResult) (j : Nat),
      ((List.range n).foldl (generateStep gen) images)[j]? =
        if j < n then Option.map (finalizeItem gen j) images[j]? else images[j]? := by
  intro n
  induction n with
  | zero => intro images j; simp
  | succ n ih =>
    intro images j
    rw [List.range_succ, List.foldl_append]
    simp only [List.foldl_cons, List.foldl_nil, generateStep_getElemOpt, ih]
    by_cases h1 : j = n
    · subst h1
      simp [Nat.lt_irrefl, Nat.lt_succ_self]
    · by_cases h2 : j < n
      · simp [h1, h2, Nat.lt_succ_of_lt h2]
      · have h3 : ¬ j < n + 1 := by omega
        simp [h1, h2, h3]

theorem length_generatePhotos (gen : Nat → Except String String)
    (poseTasks : List String) (images : List ImageResult) :
    (generatePhotos gen poseTasks images).length = images.length := by
  simp [generatePhotos, length_foldRange]

theorem generatePhotos_getElemOpt (gen : Nat → Except String String)
    (poseTasks : List String) (images : List ImageResult) (j : Nat) :
    (generatePhotos gen poseTasks images)[j]? =
      if j < poseTasks.length then Option.map (finalizeItem gen j) images[j]?
      else images[j]? := by
  simp [generatePhotos, foldRange_getElemOpt]

theorem initialImages_getElemOpt (fs : FormState) (now : Nat)
    (poses : List String) (j : Nat) :
    (initialImages fs now poses)[j]? = Option.map (initialItem fs now j) poses[j]? := by
  simp [initialImages, getElemOpt_mapIdx]

/-! ## Batch start and archiving -/

theorem handleGenerate_ok (fs : FormState) (now : Nat) (poses : List String)
    (gen : Nat → Except String String) (s : AppState) (h : poses ≠ []) :
    handleGenerate fs now (Except.ok poses) gen s =
      { images := generatePhotos gen poses (initialImages fs now poses)
        isLoading := false
        error := none
        lastUsedFormState := some fs
        viewingVideo := s.viewingVideo
        history := addToHistory now fs
          (generatePhotos gen poses (initialImages fs now poses)) s.history } := by
  have hlen : ¬ poses.length = 0 := by
    simpa [List.length_eq_zero] using h
  simp [handleGenerate, archiveEffect, hlen]

theorem handleGenerate_planFail (fs : FormState) (now : Nat) (msg : String)
    (gen : Nat → Except String String) (s : AppState) :
    handleGenerate fs now (Except.error msg) gen s =
      { images := []
        isLoading := false
        error := some ("An unexpected error occurred: Failed to generate poses: " ++ msg)
        lastUsedFormState := some fs
        viewingVideo := s.viewingVideo
        history := addToHistory now fs [] s.history } := by
  have hmsg : "An unexpected error occurred: " ++ "Failed to generate poses: " =
      "An unexpected error occurred: Failed to generate poses: " := rfl
  simp [handleGenerate, generateCatch, archiveEffect, ← String.append_assoc, hmsg]

theorem handleGenerate_emptyPoses (fs : FormState) (now : Nat)
    (gen : Nat → Except String String) (s : AppState) :
    handleGenerate fs now (Except.ok []) gen s =
      { images := []
        isLoading := false
        error := some "An unexpected error occurred: The AI failed to generate any poses. Try adjusting the description."
        lastUsedFormState := some fs
        viewingVideo := s.viewingVideo
        history := addToHistory now fs [] s.history } := by
  simp [handleGenerate, generateCatch, archiveEffect]

/-! ## Regeneration -/

theorem regenApply_ok_images (imageId : String) (updates : RegenUpdates)
    (imageUrl : String) (s : AppState) :
    (regenApply imageId updates (Except.ok imageUrl) s).images =
      s.images.map (fun img =>
        if img.id = imageId then regenSuccessItem updates imageUrl img else img) := by
  simp only [regenApply, List.map_map]
  apply List.map_congr_left
  intro img _
  by_cases h : img.id = imageId <;> simp [Function.comp, h, regenSuccessItem]

theorem regenApply_error_images (imageId : String) (updates : RegenUpdates)
    (msg : String) (s : AppState) :
    (regenApply imageId updates (Except.error msg) s).images =
      s.images.map (fun img =>
        if img.id = imageId then regenErrorItem updates msg img else img) := by
  simp only [regenApply, List.map_map]
  apply List.map_congr_left
  intro img _
  by_cases h : img.id = imageId <;> simp [Function.comp, h, regenErrorItem]

theorem handleRegenerate_run (imageId : String) (updates : RegenUpdates)
    (regenResult : Except String String) (s : AppState) (fs : FormState)
    (item : ImageResult)
    (hlast : s.lastUsedFormState = some fs)
    (hfind : s.images.find? (fun img => img.id == imageId) = some item)
    (hchange : ¬ (updates.newStyle = item.style ∧ updates.newPrompt = item.prompt)) :
    handleRegenerate imageId updates regenResult s =
      regenApply imageId updates regenResult s := by
  simp [handleRegenerate, hlast, hfind, hchange]

/-! ## Video generation

`handleVideoAction` returns the updated state together with a flag recording
whether the video-synthesis gateway (`generateVideoFromImage`) was invoked at
all during the call. -/

theorem finalBatch_getElemOpt (fs : FormState) (now : Nat) (poses : List String)
    (gen : Nat → Except String String) (j : Nat) :
    (generatePhotos gen poses (initialImages fs now poses))[j]? =
      if j < poses.length then
        Option.map (fun pose => finalizeItem gen j (initialItem fs now j pose)) poses[j]?
      else none := by
  rw [generatePhotos_getElemOpt, initialImages_getElemOpt]
  by_cases h : j < poses.length
  · simp [h, Option.map_map, Function.comp]
  · have hge : poses.length ≤ j := by omega
    simp [h, List.getElem?_eq_none hge]

theorem finalBatch_at (fs : FormState) (now : Nat) (poses : List String)
    (gen : Nat → Except String String) (j : Nat) (hj : j < poses.length) :
    (generatePhotos gen poses (initialImages fs now poses))[j]? =
      some (finalizeItem gen j (initialItem fs now j poses[j])) := by
  rw [finalBatch_getElemOpt, if_pos hj, List.getElem?_eq_getElem hj]
  rfl

/-- C1: during sequential batch execution one item's synthesis failure does
not stop the loop.  With planning succeeded on `poses` and item `i` failing
with the gateway's `reason`: the batch still has one item per pose; item `i`
ends in the `error` photo state carrying `reason`; every item whose gateway
call succeeded — before or after `i` — ends in `success` with its image, and
every failed item ends in `error`; the run finishes (`isLoading = false`)
and archives the final snapshot to history. -/
theorem C1_item_failure_does_not_stop_batch (fs : FormState) (now : Nat)
    (poses : List String) (gen : Nat → Except String String) (s : AppState)
    (i : Nat) (reason : String)
    (hposes : poses ≠ []) (hi : i < poses.length)
    (hfail : gen i = Except.error reason) (hreason : reason ≠ "") :
    (handleGenerate fs now (Except.ok poses) gen s).images.length = poses.length ∧
    statusAt (handleGenerate fs now (Except.ok poses) gen s).images i =
      some PhotoStatus.error ∧
    errorAt (handleGenerate fs now (Except.ok poses) gen s).images i =
      some (some reason) ∧
    (∀ j url, j < poses.length → gen j = Except.ok url →
      statusAt (handleGenerate fs now (Except.ok poses) gen s).images j =
        some PhotoStatus.success ∧
      srcAt (handleGenerate fs now (Except.ok poses) gen s).images j = some url) ∧
    (∀ j r, j < poses.length → gen j = Except.error r →
      statusAt (handleGenerate fs now (Except.ok poses) gen s).images j =
        some PhotoStatus.error) ∧
    (handleGenerate fs now (Except.ok poses) gen s).history =
      addToHistory now fs (handleGenerate fs now (Except.ok poses) gen s).images
        s.history ∧
    (handleGenerate fs now (Except.ok poses) gen s).isLoading = false := by
  rw [handleGenerate_ok fs now poses gen s hposes]
  refine ⟨?_, ?_, ?_, ?_, ?_, rfl, rfl⟩
  · simp [length_generatePhotos, initialImages, List.length_mapIdx]
  · simp [statusAt, finalBatch_at fs now poses gen i hi, finalizeItem, hfail,
      initialItem]
  · simp [errorAt, finalBatch_at fs now poses gen i hi, finalizeItem, hfail,
      initialItem, normalizeMessage, hreason]
  · intro j url hj hok
    constructor
    · simp [statusAt, finalBatch_at fs now poses gen j hj, finalizeItem, hok,
        initialItem]
    · simp [srcAt, finalBatch_at fs now poses gen j hj, finalizeItem, hok,
        initialItem]
  · intro j r hj herr
    simp [statusAt, finalBatch_at fs now poses gen j hj, finalizeItem, herr,
      initialItem]

/-- C1 witness: a two-pose batch where the gateway fails on the first item
with reason `blocked`; the first item still ends in the `error` state. -/
theorem C1_witness :
    genFirstFails 0 = Except.error "blocked" ∧
    statusAt (handleGenerate fsSample 5 (Except.ok ["pose-a", "pose-b"])
      genFirstFails emptyState).images 0 = some PhotoStatus.error :=
  ⟨rfl,
    (C1_item_failure_does_not_stop_batch fsSample 5 ["pose-a", "pose-b"]
      genFirstFails emptyState 0 "blocked" (by decide) (by decide) rfl
      (by decide)).2.1⟩

/-- C2 counterexample: planning returned an empty list, yet the attempt does
archive an entry to history (with zero items), contradicting the claim that
nothing is archived. -/
theorem C2_counterexample :
    (handleGenerate fsSample 7 (Except.ok []) genAllOk emptyState).history ≠ [] := by
  decide

/-- C2 (amended): if pose planning fails or returns an empty list, a
planning error is surfaced to the caller and zero tracked items are created;
however, a history entry with the attempted parameters and an empty item
list is still archived when the attempt finishes, because the archiving
effect fires on every loading-to-idle transition once a form snapshot is
recorded. -/
theorem C2_planning_failure_archives_empty_entry (fs : FormState) (now : Nat)
    (msg : String) (gen : Nat → Except String String) (s : AppState) :
    ((handleGenerate fs now (Except.ok []) gen s).images = [] ∧
      (handleGenerate fs now (Except.ok []) gen s).error.isSome = true ∧
      (handleGenerate fs now (Except.ok []) gen s).history =
        addToHistory now fs [] s.history) ∧
    ((handleGenerate fs now (Except.error msg) gen s).images = [] ∧
      (handleGenerate fs now (Except.error msg) gen s).error.isSome = true ∧
      (handleGenerate fs now (Except.error msg) gen s).history =
        addToHistory now fs [] s.history) := by
  rw [handleGenerate_emptyPoses, handleGenerate_planFail]
  simp

/-- C3 counterexample: a run with requested count 2 in which planning
returned three poses; three tracked items exist afterwards, not two, so the
count is not tied to the requested `N`. -/
theorem C3_counterexample :
    fsSample.numberOfImages = 2 ∧
    (handleGenerate fsSample 3 (Except.ok ["a", "b", "c"]) genAllOk
      emptyState).images.length = 3 := by
  decide

/-- C3 (amended): after the batch's sequential execution completes, exactly
one tracked item exists per pose returned by planning (the code does not
enforce the requested count on the planning output), each item is in a
terminal photo state, and no item is added or removed after planning
succeeds. -/
theorem C3_item_count_matches_planned_poses (fs : FormState) (now : Nat)
    (poses : List String) (gen : Nat → Except String String) (s : AppState)
    (hposes : poses ≠ []) :
    (handleGenerate fs now (Except.ok poses) gen s).images.length = poses.length ∧
    ∀ j, j < poses.length →
      statusAt (handleGenerate fs now (Except.ok poses) gen s).images j =
        some PhotoStatus.success ∨
      statusAt (handleGenerate fs now (Except.ok poses) gen s).images j =
        some PhotoStatus.error := by
  rw [handleGenerate_ok fs now poses gen s hposes]
  constructor
  · simp [length_generatePhotos, initialImages, List.length_mapIdx]
  · intro j hj
    cases hgen : gen j with
    | ok url =>
        left
        simp [statusAt, finalBatch_at fs now poses gen j hj, finalizeItem, hgen,
          initialItem]
    | error msg =>
        right
        simp [statusAt, finalBatch_at fs now poses gen j hj, finalizeItem, hgen,
          initialItem]

/-- C3 witness: a one-pose batch produces exactly one item. -/
theorem C3_witness :
    (["pose-a"] : List String) ≠ [] ∧
    (handleGenerate fsSample 11 (Except.ok ["pose-a"]) genAllOk
      emptyState).images.length = 1 :=
  ⟨by decide,
    (C3_item_count_matches_planned_poses fsSample 11 ["pose-a"] genAllOk
      emptyState (by decide)).1⟩

/-- C4 counterexample: on an item whose video state is already `success`
with a stored video, a new video request does not submit a job and does not
re-enter `loading`; it leaves the items untouched, contradicting the claim
that a fresh request from `Success` submits a new job. -/
theorem C4_counterexample :
    (handleVideoAction "a" "9:16" (Except.ok "data:newvid") sVideoSuccess).2 = false ∧
    (handleVideoAction "a" "9:16" (Except.ok "data:newvid") sVideoSuccess).1.images =
      sVideoSuccess.images := by
  decide

/-- C4 (amended): on an item with `photoState = Success`, a video request
while `videoState = Loading` is a no-op with no job submitted; from
`videoState = Idle` or `Error` a fresh request submits exactly one new job
and runs the video state machine; from `videoState = Success` with a stored
(non-empty) video source, no new job is submitted — the stored video is
shown instead. -/
theorem C4_video_dispatch_by_state (s : AppState) (imageId ar : String)
    (vr : Except String String) (item : ImageResult)
    (hfind : s.images.find? (fun img => img.id == imageId) = some item)
    (hphoto : item.status = PhotoStatus.success) :
    (item.videoStatus = VideoStatus.loading →
      handleVideoAction imageId ar vr s = (s, false)) ∧
    ((item.videoStatus = VideoStatus.idle ∨ item.videoStatus = VideoStatus.error) →
      handleVideoAction imageId ar vr s = (videoRun imageId item vr s, true)) ∧
    (∀ v, item.videoStatus = VideoStatus.success → item.videoSrc = some v → v ≠ "" →
      handleVideoAction imageId ar vr s =
        ({ s with viewingVideo := some (ViewingVideo.mk v item.src) }, false)) := by
  refine ⟨?_, ?_, ?_⟩
  · intro hl
    simp [handleVideoAction, hfind, hphoto, hl, isTruthyOpt]
  · intro hie
    rcases hie with h | h <;> simp [handleVideoAction, hfind, hphoto, h, isTruthyOpt]
  · intro v hs hv hne
    simp [handleVideoAction, hfind, hphoto, hs, hv, isTruthyOpt, hne]

/-- C4 witness: a request while the video is loading leaves the state
untouched and submits nothing. -/
theorem C4_witness :
    itemVideoLoading.videoStatus = VideoStatus.loading ∧
    handleVideoAction "a" "9:16" (Except.ok "data:newvid") sVideoLoading =
      (sVideoLoading, false) :=
  ⟨rfl,
    (C4_video_dispatch_by_state sVideoLoading "a" "9:16" (Except.ok "data:newvid")
      itemVideoLoading (by decide) rfl).1 rfl⟩

/-- C5 counterexample: a regeneration request on an item whose photo state
is already `loading` (with a changed style) is neither rejected nor skipped:
the synthesis runs and overwrites the item, so no `ConflictError` exists. -/
theorem C5_counterexample :
    statusAt (handleRegenerate "a" { newStyle := "cinematic", newPrompt := "p" }
      (Except.ok "data:new") sPhotoLoading).images 0 = some PhotoStatus.success ∧
    (handleRegenerate "a" { newStyle := "cinematic", newPrompt := "p" }
      (Except.ok "data:new") sPhotoLoading).images ≠ sPhotoLoading.images := by
  decide

/-- C5 (amended): the code performs no in-flight check for regeneration — a
request on an item whose photo state is already `loading` (with a changed
style or prompt) is handled exactly like any other regeneration: the new
style and prompt are applied and a fresh synthesis call runs, its outcome
overwriting the item; no rejection, queueing, or conflict signal exists. -/
theorem C5_no_inflight_regeneration_check (s : AppState) (imageId : String)
    (updates : RegenUpdates) (rr : Except String String) (fs : FormState)
    (item : ImageResult)
    (hlast : s.lastUsedFormState = some fs)
    (hfind : s.images.find? (fun img => img.id == imageId) = some item)
    (_hloading : item.status = PhotoStatus.loading)
    (hchange : ¬ (updates.newStyle = item.style ∧ updates.newPrompt = item.prompt)) :
    handleRegenerate imageId updates rr s = regenApply imageId updates rr s :=
  handleRegenerate_run imageId updates rr s fs item hlast hfind hchange

/-- C5 witness: regenerating the loading item proceeds into the regeneration
body. -/
theorem C5_witness :
    itemPhotoLoading.status = PhotoStatus.loading ∧
    handleRegenerate "a" { newStyle := "cinematic", newPrompt := "p" }
      (Except.ok "data:new") sPhotoLoading =
      regenApply "a" { newStyle := "cinematic", newPrompt := "p" }
        (Except.ok "data:new") sPhotoLoading :=
  ⟨rfl,
    C5_no_inflight_regeneration_check sPhotoLoading "a"
      { newStyle := "cinematic", newPrompt := "p" } (Except.ok "data:new")
      fsSample itemPhotoLoading rfl (by decide) rfl (by decide)⟩

/-- C6 counterexample: a video request on an item whose photo state is
`loading` returns with no gateway call, no state change and no error signal
— the violation is silently ignored, contradicting the claim that it is
signaled to the caller. -/
theorem C6_counterexample :
    handleVideoAction "a" "9:16" (Except.ok "data:vid") sPhotoLoading =
      (sPhotoLoading, false) ∧
    sPhotoLoading.error = none := by
  decide

/-- C6 (amended): a video request on an item whose photo state is not
`success` results in no gateway call, but the precondition violation is
silently ignored: the handler returns with the state unchanged and signals
nothing. -/
theorem C6_precondition_violation_is_silent (s : AppState) (imageId ar : String)
    (vr : Except String String) (item : ImageResult)
    (hfind : s.images.find? (fun img => img.id == imageId) = some item)
    (hnot : item.status ≠ PhotoStatus.success) :
    handleVideoAction imageId ar vr s = (s, false) := by
  simp [handleVideoAction, hfind, hnot]

/-- C6 witness: a video request on the loading item is a silent no-op. -/
theorem C6_witness :
    itemPhotoLoading.status ≠ PhotoStatus.success ∧
    handleVideoAction "a" "9:16" (Except.error "x") sPhotoLoading =
      (sPhotoLoading, false) :=
  ⟨by decide,
    C6_precondition_violation_is_silent sPhotoLoading "a" "9:16"
      (Except.error "x") itemPhotoLoading (by decide) (by decide)⟩

/-- C7: a non-no-op regeneration always resets the item's video sub-state —
`videoStatus` becomes `idle` and both the video source and the video error
are cleared — whatever the previous video sub-state was and whatever the
synthesis outcome is. -/
theorem C7_regeneration_resets_video_state (s : AppState) (imageId : String)
    (updates : RegenUpdates) (rr : Except String String) (fs : FormState)
    (item : ImageResult)
    (hlast : s.lastUsedFormState = some fs)
    (hfind : s.images.find? (fun img => img.id == imageId) = some item)
    (hchange : ¬ (updates.newStyle = item.style ∧ updates.newPrompt = item.prompt)) :
    ∀ img ∈ (handleRegenerate imageId updates rr s).images, img.id = imageId →
      img.videoStatus = VideoStatus.idle ∧ img.videoSrc = none ∧
        img.videoError = none := by
  rw [handleRegenerate_run imageId updates rr s fs item hlast hfind hchange]
  cases rr with
  | ok url =>
      rw [regenApply_ok_images]
      intro img hmem hid
      rcases List.mem_map.mp hmem with ⟨a, _, rfl⟩
      by_cases h : a.id = imageId
      · simp [h, regenSuccessItem]
      · rw [if_neg h] at hid
        exact absurd hid h
  | error msg =>
      rw [regenApply_error_images]
      intro img hmem hid
      rcases List.mem_map.mp hmem with ⟨a, _, rfl⟩
      by_cases h : a.id = imageId
      · simp [h, regenErrorItem]
      · rw [if_neg h] at hid
        exact absurd hid h

/-- C7 witness: regenerating an item whose video already succeeded resets
the video sub-state to `idle` with both payloads cleared. -/
theorem C7_witness :
    itemRegenOkResult ∈ (handleRegenerate "a"
      { newStyle := "cinematic", newPrompt := "p" } (Except.ok "data:new")
        sRegen).images ∧
    itemRegenOkResult.videoStatus = VideoStatus.idle ∧
    itemRegenOkResult.videoSrc = none ∧ itemRegenOkResult.videoError = none :=
  ⟨by decide,
    C7_regeneration_resets_video_state sRegen "a"
      { newStyle := "cinematic", newPrompt := "p" } (Except.ok "data:new")
      fsSample itemRegen rfl (by decide) (by decide) itemRegenOkResult
      (by decide) rfl⟩

/-- C8 counterexample: a failed regeneration of a previously successful item
leaves the old photo source next to the fresh photo error, so the
mutual-exclusion invariant does not hold in every reachable state. -/
theorem C8_counterexample :
    (handleRegenerate "a" { newStyle := "e-commerce", newPrompt := "p2" }
      (Except.error "boom") sRegen).images = [itemRegenFailResult] ∧
    ¬ photoInvariant itemRegenFailResult := by
  decide

/-- C8 (amended): the photo-state invariant — photo result present iff
`success`, photo error present iff `error`, never both — holds for every
item at the end of a batch execution whose successful gateway payloads are
non-empty; but regeneration does not preserve it: a failed regeneration
keeps the previous photo source alongside the new error (see the
counterexample). -/
theorem C8_invariant_holds_after_batch (fs : FormState) (now : Nat)
    (poses : List String) (gen : Nat → Except String String) (s : AppState)
    (hposes : poses ≠ [])
    (hurl : ∀ i url, gen i = Except.ok url → url ≠ "") :
    ∀ img ∈ (handleGenerate fs now (Except.ok poses) gen s).images,
      photoInvariant img := by
  rw [handleGenerate_ok fs now poses gen s hposes]
  intro img hmem
  rcases List.mem_iff_get.mp hmem with ⟨⟨j, hj⟩, hget⟩
  have hjp : j < poses.length := by
    rw [length_generatePhotos, initialImages, List.length_mapIdx] at hj
    exact hj
  have h2 : (generatePhotos gen poses (initialImages fs now poses))[j]? = some img := by
    rw [List.getElem?_eq_getElem hj]
    rw [List.get_eq_getElem] at hget
    rw [hget]
  rw [finalBatch_at fs now poses gen j hjp] at h2
  have himg : img = finalizeItem gen j (initialItem fs now j poses[j]) :=
    (Option.some.inj h2).symm
  subst himg
  cases hgen : gen j with
  | ok url =>
      have hne := hurl j url hgen
      simp [photoInvariant, finalizeItem, hgen, initialItem, hne]
  | error msg =>
      simp [photoInvariant, finalizeItem, hgen, initialItem]

/-- C8 witness: the single item of a successful one-pose batch satisfies the
invariant. -/
theorem C8_witness :
    (["pose-a"] : List String) ≠ [] ∧
    itemBatchOkResult ∈ (handleGenerate fsSample 11 (Except.ok ["pose-a"])
      genAllOk emptyState).images ∧
    photoInvariant itemBatchOkResult :=
  ⟨by decide, by decide,
    C8_invariant_holds_after_batch fsSample 11 ["pose-a"] genAllOk emptyState
      (by decide)
      (fun i url h => by
        injection h with h2
        subst h2
        decide)
      itemBatchOkResult (by decide)⟩

/-- C9: prompt building is a pure function equal to the spec's concatenation
of preamble, description clause, reference-image clause (four variants),
pose clause, aspect-ratio clause and style clause, and an unrecognized style
falls back to the generic clean-studio clause; being a function of its
arguments, identical inputs yield identical text. -/
theorem C9_prompt_builder (fs : FormState) (pose : String) :
    constructPrompt fs pose = promptSpec fs pose ∧
    (∀ st, st ∉ knownStyles → styleClause st = genericStyleClause st) :=
  ⟨constructPrompt_eq_promptSpec fs pose, styleClause_of_not_known⟩

/-- C9 witness: a form with the unrecognized style `funky` still builds the
decomposed prompt, using the generic fallback clause. -/
theorem C9_witness :
    ("funky" ∉ knownStyles) ∧
    constructPrompt fsFunky "posing" = promptSpec fsFunky "posing" ∧
    styleClause "funky" = genericStyleClause "funky" :=
  ⟨by decide, (C9_prompt_builder fsFunky "posing").1,
    (C9_prompt_builder fsFunky "posing").2 "funky" (by decide)⟩

/-- C10: when a regeneration's synthesis call fails, nothing is rolled back:
the matching item keeps the overridden style and prompt, its video sub-state
stays reset (`idle`, no video source, no video error), its photo state
becomes `error` with the failure reason — and the stored image source of
every item, matching or not, is exactly what it was before the call. -/
theorem C10_failed_regeneration_keeps_overrides (s : AppState) (imageId : String)
    (updates : RegenUpdates) (msg : String) (fs : FormState) (item : ImageResult)
    (hlast : s.lastUsedFormState = some fs)
    (hfind : s.images.find? (fun img => img.id == imageId) = some item)
    (hchange : ¬ (updates.newStyle = item.style ∧ updates.newPrompt = item.prompt)) :
    (∀ img ∈ (handleRegenerate imageId updates (Except.error msg) s).images,
      img.id = imageId →
        img.status = PhotoStatus.error ∧ img.error = some msg ∧
        img.style = updates.newStyle ∧ img.prompt = updates.newPrompt ∧
        img.videoStatus = VideoStatus.idle ∧ img.videoSrc = none ∧
        img.videoError = none) ∧
    (∀ j, srcAt (handleRegenerate imageId updates (Except.error msg) s).images j =
      srcAt s.images j) := by
  rw [handleRegenerate_run imageId updates (Except.error msg) s fs item hlast
    hfind hchange, regenApply_error_images]
  constructor
  · intro img hmem hid
    rcases List.mem_map.mp hmem with ⟨a, _, rfl⟩
    by_cases h : a.id = imageId
    · simp [h, regenErrorItem]
    · rw [if_neg h] at hid
      exact absurd hid h
  · intro j
    unfold srcAt
    rw [List.getElem?_map]
    cases hx : s.images[j]? with
    | none => rfl
    | some a =>
        by_cases h : a.id = imageId <;> simp [h, regenErrorItem]

/-- C10 witness: after a failed regeneration of the successful sample item,
the stored image source at position 0 is unchanged. -/
theorem C10_witness :
    ¬ (("e-commerce" : String) = itemRegen.style ∧ ("p2" : String) = itemRegen.prompt) ∧
    srcAt (handleRegenerate "a" { newStyle := "e-commerce", newPrompt := "p2" }
      (Except.error "boom") sRegen).images 0 = srcAt sRegen.images 0 :=
  ⟨by decide,
    (C10_failed_regeneration_keeps_overrides sRegen "a"
      { newStyle := "e-commerce", newPrompt := "p2" } "boom" fsSample itemRegen
      rfl (by decide) (by decide)).2 0⟩

end ImageStyleGen
